import Mathlib

/-!
Verification of the Calos assistant backend (TypeScript) against its
natural-language specification, via a shallow embedding in Lean.

Conventions used throughout:
* TypeScript `number` values that carry scores, confidences and similarities
  are modelled as `ℚ` (rationals written with `mkRat` so that concrete
  instances evaluate inside the kernel), including `durationDays`, which
  the source receives as an LLM-extracted JSON number with no integer
  coercion.
* JavaScript string primitives (`toLowerCase`, `trim`, `split`, `includes`,
  lexicographic `<=`) are implemented structurally over `String.data`
  (`List Char`), mirroring the JavaScript semantics exactly on the
  character level, so that concrete runs are kernel-computable.
* Asynchronous calls to external collaborators (the Gemini gateway, the
  Day-Tracker REST API, the SQL store) are modelled by passing the
  collaborator's observable answer in as an explicit argument, and by
  returning the outbound effects explicitly where a claim is about effects.
  `catch` blocks become `Option`/`Except` case splits.
* A model response that the code feeds through `JSON.parse` is abstracted as
  the parse outcome: `none` for malformed JSON, `some p` for the extracted
  fields.  JavaScript's falsy checks on possibly-absent fields are modelled
  with `Option` (an absent field is `none`).
-/

namespace Calos

/-! ### JavaScript string primitives -/

/-- JavaScript `String.prototype.toLowerCase` (ASCII range, which is all the
code relies on). -/
def toLowerStr (s : String) : String :=
  String.mk (s.data.map Char.toLower)

/-- JavaScript `String.prototype.trim`: strip leading and trailing
whitespace. -/
def trimStr (s : String) : String :=
  String.mk (((s.data.dropWhile Char.isWhitespace).reverse.dropWhile Char.isWhitespace).reverse)

/-- JavaScript `str.split(sep)` for a single-character separator: split at
every occurrence of the separator; consecutive separators yield
empty-string pieces, and the empty string yields `[""]`. -/
def splitChars (sep : Char) : List Char → List (List Char)
  | [] => [[]]
  | c :: cs =>
    let rest := splitChars sep cs
    if c = sep then [] :: rest
    else
      match rest with
      | [] => [[c]]
      | w :: ws => (c :: w) :: ws

/-- `splitChars` packaged on `String`. -/
def splitStr (sep : Char) (s : String) : List String :=
  (splitChars sep s.data).map String.mk

/-- Character-list version of substring search: does `sub` occur
contiguously in the list? -/
def beginsWith : List Char → List Char → Bool
  | _, [] => true
  | [], _ :: _ => false
  | c :: cs, d :: ds => c = d && beginsWith cs ds

/-- JavaScript `String.prototype.includes`: `sub` occurs contiguously in
`s` (the empty string occurs in everything). -/
def listContains : List Char → List Char → Bool
  | [], sub => sub.isEmpty
  | c :: cs, sub => beginsWith (c :: cs) sub || listContains cs sub

/-- `listContains` packaged on `String`. -/
def strContains (s sub : String) : Bool :=
  listContains s.data sub.data

/-- JavaScript `<=` on strings: lexicographic comparison by code unit
(identical to code-point order on the ASCII strings compared here). -/
def charListLE : List Char → List Char → Bool
  | [], _ => true
  | _ :: _, [] => false
  | c :: cs, d :: ds =>
    if c.toNat < d.toNat then true
    else if d.toNat < c.toNat then false
    else charListLE cs ds

/-- `charListLE` packaged on `String`. -/
def strLE (a b : String) : Bool :=
  charListLE a.data b.data

/-! ### Goal-Tracker client (src/services/dayTrackerAPI.ts)

The `Goal` record keeps the fields the embedded operations read
(`id`, `title`, `isActive`, `progress`); the remaining display fields
(`description`, `startDate`, `durationDays`, `endDate`, `color`,
`loggedDays`, `daysRemaining`) are never inspected by the code under
verification and are omitted. -/

structure Goal where
  id : Nat
  title : String
  isActive : Bool
  progress : Nat
  deriving DecidableEq, Repr

/-- The word set of a string, as built by `new Set(str.split(' '))` in
`calculateSimilarity`. -/
def wordSet (s : String) : Finset String :=
  (splitStr ' ' s).toFinset

/-- `DayTrackerAPIService.calculateSimilarity` (dayTrackerAPI.ts:246-254):
Jaccard similarity `|words1 ∩ words2| / |words1 ∪ words2|` of the word sets
of the two strings (`mkRat` is exact rational division, with the JavaScript
float division modelled exactly; the union is never empty, so the
denominator is never zero). -/
def calculateSimilarity (str1 str2 : String) : ℚ :=
  mkRat ((wordSet str1 ∩ wordSet str2).card : Int) (wordSet str1 ∪ wordSet str2).card

/-- The substring-phase test of `findGoalByKeyword` (dayTrackerAPI.ts:209-212):
the lowercased title contains the (lowercased, trimmed) keyword, or the
keyword contains the title. -/
def titleMatches (lowerKeyword : String) (g : Goal) : Bool :=
  strContains (toLowerStr g.title) lowerKeyword || strContains lowerKeyword (toLowerStr g.title)

/-- `DayTrackerAPIService.findGoalByKeyword` (dayTrackerAPI.ts:199-240).
The goal list returned by `getGoals()` is the `goals` argument.  The JS
`matches.sort((a, b) => b.similarity - a.similarity)` is a stable sort by
descending similarity, modelled by `List.insertionSort` with the total
preorder `q.2 ≤ p.2`; `matches[0]` is its head, and the threshold test is
`similarity > 0.5`. -/
def findGoalByKeyword (keyword : String) (goals : List Goal) : Option Goal :=
  if goals.isEmpty then none
  else
    let lowerKeyword := trimStr (toLowerStr keyword)
    match goals.find? (titleMatches lowerKeyword) with
    | some g => some g
    | none =>
      let pairs := goals.map (fun g => (g, calculateSimilarity lowerKeyword (toLowerStr g.title)))
      let sorted := List.insertionSort (fun p q : Goal × ℚ => q.2 ≤ p.2) pairs
      match sorted.head? with
      | some m => if mkRat 1 2 < m.2 then some m.1 else none
      | none => none

/-- The first element of a list attaining the maximum value of `f`
(earliest wins on ties). -/
def firstMaxBy {α : Type} (f : α → ℚ) : List α → Option α
  | [] => none
  | a :: l =>
    match firstMaxBy f l with
    | none => some a
    | some b => if f b ≤ f a then some a else some b

/-- `findGoalByKeyword` as claim C5 words it: a substring phase where the
first matching goal in source order wins, then — only when the substring
phase finds nothing — a Jaccard-similarity phase that picks the
maximum-similarity goal (source order breaking ties) and accepts it only
when its similarity is strictly greater than 0.5. -/
def findGoalByKeywordSpec (keyword : String) (goals : List Goal) : Option Goal :=
  let lowerKeyword := trimStr (toLowerStr keyword)
  match goals.find? (titleMatches lowerKeyword) with
  | some g => some g
  | none =>
    match firstMaxBy (fun g => calculateSimilarity lowerKeyword (toLowerStr g.title)) goals with
    | some g =>
      if mkRat 1 2 < calculateSimilarity lowerKeyword (toLowerStr g.title) then some g else none
    | none => none

/-! ### Message importance classifier (src/services/messageClassifier.ts) -/

/-- The fields the code reads off the JSON object produced by
`JSON.parse` on the model's classification response.  `score` is a number;
`category` and `reasoning` are strings when present (`none` models an
absent field). -/
structure ParsedClassificationJson where
  score : ℚ
  category : Option String
  reasoning : Option String
  deriving DecidableEq, Repr

/-- `ClassificationResult` (messageClassifier.ts:5-9). -/
structure ClassificationResult where
  score : ℚ
  category : String
  reasoning : String
  deriving DecidableEq, Repr

/-- The category test `['high', 'medium', 'low'].includes(category)`
(messageClassifier.ts:124).  The JavaScript guard is
`!category || !includes(category)`; a present-but-empty category string is
falsy in JavaScript, and is also not in the list, so the two guards agree
with this single test. -/
def validCategory (c : String) : Bool :=
  c = "high" || c = "medium" || c = "low"

/-- Category derivation from the clamped score
(messageClassifier.ts:125): `score >= 8 ? 'high' : score >= 5 ? 'medium' : 'low'`. -/
def categoryFromScore (score : ℚ) : String :=
  if 8 ≤ score then "high" else if 5 ≤ score then "medium" else "low"

/-- `MessageClassifier.parseClassificationResponse`
(messageClassifier.ts:108-143), abstracted over the JSON parse outcome:
`none` is the `catch` branch (malformed JSON), `some p` the parsed fields.
The score is clamped by `Math.max(1, Math.min(10, parsed.score))`; a
missing or invalid category is derived from the clamped score; a falsy
reasoning falls back to a fixed string. -/
def parseClassificationResponse (parsed : Option ParsedClassificationJson) :
    ClassificationResult :=
  match parsed with
  | none => { score := 5, category := "medium", reasoning := "Failed to parse response" }
  | some p =>
    let score := max 1 (min 10 p.score)
    { score := score
      category :=
        match p.category with
        | some c => if validCategory c then c else categoryFromScore score
        | none => categoryFromScore score
      reasoning :=
        match p.reasoning with
        | some r => if r.isEmpty then "No reasoning provided" else r
        | none => "No reasoning provided" }

/-- `MessageClassifier.classify` (messageClassifier.ts:26-67), abstracted
over the observable outcome of the model call: the outer `none` is the
`catch` branch (the gateway call or the feedback lookup threw), and
`some parsed` hands the response text's JSON parse outcome to
`parseClassificationResponse`.  The prompt construction does not affect the
returned classification and is not modelled. -/
def classify (outcome : Option (Option ParsedClassificationJson)) : ClassificationResult :=
  match outcome with
  | none =>
    { score := 5, category := "medium"
      reasoning := "Classification error, defaulting to medium importance" }
  | some parsed => parseClassificationResponse parsed

/-- The post-feedback update of a stored `MonitoredMessage`
(preferences.routes.ts:396-401): the new category is derived from the
corrected score by the same bands, and both are written back. -/
def feedbackCategory (correctedScore : ℚ) : String :=
  if 8 ≤ correctedScore then "high" else if 5 ≤ correctedScore then "medium" else "low"

/-- The `(importance_score, classification)` pair written by the
`POST /feedback/:id` route. -/
structure FeedbackUpdate where
  importanceScore : ℚ
  classification : String
  deriving DecidableEq, Repr

/-- The update performed by `POST /feedback/:id` (preferences.routes.ts:396-401). -/
def applyFeedback (correctedScore : ℚ) : FeedbackUpdate :=
  { importanceScore := correctedScore, classification := feedbackCategory correctedScore }

/-- The band agreement of claim C1, in its words: `score ≥ 8 ⇒ high`,
`5 ≤ score ≤ 7 ⇒ medium`, `score ≤ 4 ⇒ low`. -/
def bandAgrees (score : ℚ) (category : String) : Prop :=
  (8 ≤ score → category = "high") ∧
  (5 ≤ score ∧ score ≤ 7 → category = "medium") ∧
  (score ≤ 4 → category = "low")

instance (s : ℚ) (c : String) : Decidable (bandAgrees s c) :=
  inferInstanceAs (Decidable ((8 ≤ s → c = "high") ∧
    (5 ≤ s ∧ s ≤ 7 → c = "medium") ∧ (s ≤ 4 → c = "low")))

/-! ### Intent analyzer (src/services/intentService.ts) -/

/-- The `Intent` enum (intentService.ts:4-12); constructor names carry the
enum's string values. -/
inductive Intent where
  | create_log
  | create_goal
  | update_goal
  | create_reminder
  | get_status
  | get_summary
  | chat
  deriving DecidableEq, Repr

/-- The membership test `Object.values(Intent).includes(parsed.intent)`
(intentService.ts:191) together with the cast `parsed.intent as Intent`:
`none` exactly when the string is outside the recognized enum. -/
def intentOfString : String → Option Intent
  | "create_log" => some .create_log
  | "create_goal" => some .create_goal
  | "update_goal" => some .update_goal
  | "create_reminder" => some .create_reminder
  | "get_status" => some .get_status
  | "get_summary" => some .get_summary
  | "chat" => some .chat
  | _ => none

/-- The fields the code reads off the JSON object produced by `JSON.parse`
on the model's intent response (`none` models an absent field). -/
structure ParsedIntentJson where
  intent : Option String
  entities : Option (List (String × String))
  confidence : Option ℚ
  deriving DecidableEq, Repr

/-- `IntentAnalysisResult` (intentService.ts:14-19). -/
structure IntentAnalysisResult where
  intent : Intent
  entities : List (String × String)
  confidence : ℚ
  rawMessage : String
  deriving DecidableEq, Repr

/-- The degraded result all three fallback branches of the analyzer build:
`{intent: CHAT_ONLY, entities: {}, confidence: 1.0, rawMessage: raw}`. -/
def chatFallback (raw : String) : IntentAnalysisResult :=
  { intent := .chat, entities := [], confidence := 1, rawMessage := raw }

/-- `IntentService.parseIntentResponse` (intentService.ts:178-218),
abstracted over the JSON parse outcome of the (code-fence-stripped)
response text: `none` is the `catch` branch, `some p` the parsed object.
A missing or unrecognized intent string falls back to chat; otherwise
`entities` defaults to `{}` when falsy and `confidence` to `0.5` when
falsy (in JavaScript a confidence of exactly `0` is falsy too). -/
def parseIntentResponse (response : String) (parsed : Option ParsedIntentJson) :
    IntentAnalysisResult :=
  match parsed with
  | none => chatFallback response
  | some p =>
    match p.intent.bind intentOfString with
    | none => chatFallback response
    | some i =>
      { intent := i
        entities := p.entities.getD []
        confidence :=
          match p.confidence with
          | some c => if c = 0 then mkRat 1 2 else c
          | none => mkRat 1 2
        rawMessage := response }

/-- The observable outcome of the retried Gemini call inside
`analyzeIntent`: `failure` when the call still throws after its retries,
`success resp parsed` when it returns text `resp` whose JSON parse outcome
is `parsed`. -/
inductive GatewayOutcome where
  | failure
  | success (response : String) (parsed : Option ParsedIntentJson)
  deriving DecidableEq, Repr

/-- `IntentService.analyzeIntent` (intentService.ts:29-68): the `catch`
around the gateway call degrades to the chat fallback on the original
message; otherwise the response is parsed.  The function is total: the
analyzer never throws. -/
def analyzeIntent (message : String) : GatewayOutcome → IntentAnalysisResult
  | .failure => chatFallback message
  | .success resp parsed => parseIntentResponse resp parsed

/-! ### Action dispatch (src/services/aiService.ts) -/

/-- The three Action Executors the `executeAction` switch can invoke
(aiService.ts:106-133): `dailyLogCreator.createLog`,
`goalCreator.createGoal`, `reminderCreator.createReminder`. -/
inductive ExecutorKind where
  | dailyLog
  | goalCreator
  | reminderCreator
  deriving DecidableEq, Repr

/-- The intent-to-executor switch of `AIService.executeAction`
(aiService.ts:106-136): the `default` branch returns `null`, so the three
query intents map to no executor. -/
def executorFor : Intent → Option ExecutorKind
  | .create_log => some .dailyLog
  | .create_goal => some .goalCreator
  | .create_reminder => some .reminderCreator
  | _ => none

/-- The dispatch gate of `AIService.chat` (aiService.ts:38-44):
`executeAction` is reached only when a JWT token was provided and
`intentResult.intent !== Intent.CHAT_ONLY && intentResult.confidence > 0.6`. -/
def chatCallsDispatcher (hasJwtToken : Bool) (r : IntentAnalysisResult) : Bool :=
  hasJwtToken && decide (r.intent ≠ Intent.chat) && decide (mkRat 3 5 < r.confidence)

/-- Which Action Executor a chat turn invokes: the gate of
`AIService.chat` composed with the switch of `executeAction`. -/
def chatInvokedExecutor (hasJwtToken : Bool) (r : IntentAnalysisResult) :
    Option ExecutorKind :=
  if chatCallsDispatcher hasJwtToken r then executorFor r.intent else none

/-- `AIService.executeAction` (aiService.ts:102-144) at the level claims
C3 and C10 speak about: the awaited result of each executor on the call's
entities is passed in (`runLog`, `runGoal`, `runReminder`); the `default`
branch returns `null` (`none`).  The surrounding `catch` (which converts an
executor exception into `{success: false, message: "Failed to execute
action"}`) is not reachable for the `default` branch and is not modelled. -/
def executeAction {α : Type} (runLog runGoal runReminder : α) (intent : Intent) :
    Option α :=
  (executorFor intent).map (fun k =>
    match k with
    | .dailyLog => runLog
    | .goalCreator => runGoal
    | .reminderCreator => runReminder)

/-- The `actionResult` a chat turn ends up with (aiService.ts:36-45):
`none` when the gate does not fire or when `executeAction` hits its
`default` branch. -/
def chatActionResult {α : Type} (runLog runGoal runReminder : α)
    (hasJwtToken : Bool) (r : IntentAnalysisResult) : Option α :=
  if chatCallsDispatcher hasJwtToken r then executeAction runLog runGoal runReminder r.intent
  else none

/-! ### Goal creation (src/services/actions/goalCreator.ts) -/

/-- `CreateGoalParams` (goalCreator.ts:10-17); `durationDays` is a
TypeScript `number` fed from the intent analyzer's extracted entities with
no integer coercion, so it is modelled as `ℚ` like every other number. -/
structure CreateGoalParams where
  title : String
  description : Option String
  durationDays : ℚ
  startDate : Option String
  color : Option String
  jwtToken : String
  deriving DecidableEq, Repr

/-- `GOAL_COLORS` (goalCreator.ts:20-23). -/
def goalColors : List String :=
  ["#FF6B6B", "#4ECDC4", "#45B7D1", "#FFA07A", "#98D8C8",
   "#F7DC6F", "#BB8FCE", "#85C1E2", "#F8B195", "#C06C84"]

/-- The request body `goalData` posted to `POST /goals` (goalCreator.ts:58-64). -/
structure CreateGoalRequest where
  title : String
  description : Option String
  startDate : String
  durationDays : ℚ
  color : String
  deriving DecidableEq, Repr

/-- `CreateGoalResult` (goalCreator.ts:4-8). -/
structure CreateGoalResult where
  success : Bool
  goal : Option Goal
  message : String
  deriving DecidableEq, Repr

/-- `GoalCreator.createGoal` (goalCreator.ts:32-87).  `today` is
`new Date().toISOString().split('T')[0]`, `randIdx` the index drawn by
`getRandomColor` (`Math.floor(Math.random() * 10)`), and `api` the
observable outcome of `dayTrackerAPI.createGoal` (its `catch` branch is the
`error` case).  The second component is the goal-creation request actually
sent: `none` means no network call to the Goal-Tracker service was
performed (the preceding `setAuthToken` only sets a default header).  The
duration check is `durationDays <= 0 || durationDays > 3650`; a falsy
(absent or empty) color picks from the palette. -/
def createGoal (p : CreateGoalParams) (today : String) (randIdx : Fin 10)
    (api : Except String Goal) : CreateGoalResult × Option CreateGoalRequest :=
  if p.durationDays ≤ 0 ∨ 3650 < p.durationDays then
    ({ success := false, goal := none
       message := "Goal duration must be between 1 and 3650 days (10 years)." }, none)
  else
    let goalColor :=
      match p.color with
      | some c => if c.isEmpty then goalColors.getD randIdx.val "#FF6B6B" else c
      | none => goalColors.getD randIdx.val "#FF6B6B"
    let request : CreateGoalRequest :=
      { title := p.title
        description := p.description
        startDate := p.startDate.getD today
        durationDays := p.durationDays
        color := goalColor }
    match api with
    | .ok g =>
      ({ success := true, goal := some g
         message := "Created \"" ++ p.title ++ "\" goal for " ++
           toString p.durationDays ++ " days!" }, some request)
    | .error e =>
      ({ success := false, goal := none
         message := "Failed to create goal: " ++ e }, some request)

/-! ### Goal resolution in the executors
(src/unnamed/part_002 = dailyLogCreator, src/services/actions/reminderCreator.ts) -/

/-- `allGoals.filter(g => g.isActive)`, as both executors compute it. -/
def activeGoals (goals : List Goal) : List Goal :=
  goals.filter (fun g => g.isActive)

/-- How an executor ends up with a target goal: a resolved goal, a
non-fatal "needs goal selection" result carrying the active goals
(`needsGoalSelection: true, availableGoals: ...`), or the non-exception
failure asking the user to create a goal first (the zero-active-goals
message). -/
inductive GoalResolution where
  | resolved (g : Goal)
  | needsSelection (active : List Goal)
  | noActiveGoals
  deriving DecidableEq, Repr

/-- The no-keyword branch of `DailyLogCreator.createLog` (part_002:73-97):
zero active goals fail, exactly one is used silently, more than one asks. -/
def resolveLogGoalNoKeyword (goals : List Goal) : GoalResolution :=
  match activeGoals goals with
  | [] => .noActiveGoals
  | [g] => .resolved g
  | gs => .needsSelection gs

/-- The goal resolution of `DailyLogCreator.createLog` (part_002:45-97).
`if (goalKeyword)` is JavaScript truthiness: an absent or empty keyword
takes the no-keyword branch.  A supplied keyword that matches nothing
yields "needs goal selection" over the active goals (or the
zero-active-goals failure). -/
def resolveLogGoal (goalKeyword : Option String) (goals : List Goal) : GoalResolution :=
  match goalKeyword with
  | some kw =>
    if kw.isEmpty then resolveLogGoalNoKeyword goals
    else
      match findGoalByKeyword kw goals with
      | some g => .resolved g
      | none =>
        let active := activeGoals goals
        if active.isEmpty then .noActiveGoals else .needsSelection active
  | none => resolveLogGoalNoKeyword goals

/-- The keyword step of `ReminderCreator.createReminder`
(reminderCreator.ts:40-43): `let goal = null; if (goalKeyword) goal =
await dayTrackerAPI.findGoalByKeyword(goalKeyword)`. -/
def reminderKeywordGoal (goalKeyword : Option String) (goals : List Goal) : Option Goal :=
  match goalKeyword with
  | some kw => if kw.isEmpty then none else findGoalByKeyword kw goals
  | none => none

/-- The goal resolution of `ReminderCreator.createReminder`
(reminderCreator.ts:39-59): whenever the keyword step produced no goal —
no keyword, empty keyword, or a keyword that matched nothing — the first
active goal is used, and with zero active goals the non-exception failure
("You don't have any active goals. Create a goal first to add reminders
to.") is returned. -/
def resolveReminderGoal (goalKeyword : Option String) (goals : List Goal) : GoalResolution :=
  match reminderKeywordGoal goalKeyword goals with
  | some g => .resolved g
  | none =>
    match activeGoals goals with
    | [] => .noActiveGoals
    | g :: _ => .resolved g

/-! ### Monitoring scheduler (src/services/monitoringScheduler.ts) -/

/-- The wake/sleep window of a user's `ai_preferences` row, as `HH:MM`
strings. -/
structure ActiveHoursPrefs where
  wakeTime : String
  sleepTime : String
  deriving DecidableEq, Repr

/-- The column defaults of `ai_preferences` (database/schema.sql:129-130):
`wake_time TIME DEFAULT '08:00'`, `sleep_time TIME DEFAULT '21:00'`.
They apply only when a row exists. -/
def defaultPrefs : ActiveHoursPrefs :=
  { wakeTime := "08:00", sleepTime := "21:00" }

/-- `MonitoringScheduler.isWithinActiveHours`
(monitoringScheduler.ts:250-270): when the user has no `ai_preferences`
row the code returns `true` ("Default to always active if no
preferences"); otherwise the current `HH:MM` string is compared
lexicographically against the stored times. -/
def isWithinActiveHours (prefs : Option ActiveHoursPrefs) (currentTime : String) : Bool :=
  match prefs with
  | none => true
  | some p => strLE p.wakeTime currentTime && strLE currentTime p.sleepTime

/-- The outbound effects of one per-user Gmail cycle that the claims
observe. -/
inductive CycleEffect where
  | fetchEmails
  | classifyAndStore (messageId : String)
  | updateLastSync
  deriving DecidableEq, Repr

/-- The per-email loop of `checkGmailForUser`
(monitoringScheduler.ts:92-138): an already-stored id is skipped
(`continue`), otherwise the email is classified and stored (and is seen by
later dedup checks of the same cycle). -/
def processEmails (stored : List String) : List String → List CycleEffect
  | [] => []
  | id :: rest =>
    if stored.contains id then processEmails stored rest
    else .classifyAndStore id :: processEmails (id :: stored) rest

/-- `MonitoringScheduler.checkGmailForUser` (monitoringScheduler.ts:78-145)
as its list of outbound effects.  `fetched` is the id list
`gmailService.fetchRecentUnreadEmails` would return, `stored` the ids
already in `monitored_messages`.  Outside active hours the method returns
before fetching anything; inside, it fetches, processes each email, and
updates the last-sync timestamp. -/
def checkGmailForUser (prefs : Option ActiveHoursPrefs) (currentTime : String)
    (fetched stored : List String) : List CycleEffect :=
  if isWithinActiveHours prefs currentTime then
    .fetchEmails :: (processEmails stored fetched ++ [.updateLastSync])
  else []


/-! ### Helper lemmas -/

lemma head?_orderedInsert {α : Type} (r : α → α → Prop) [DecidableRel r] (a : α)
    (s : List α) :
    (List.orderedInsert r a s).head? =
      some (match s with
            | [] => a
            | b :: _ => if r a b then a else b) := by
  cases s with
  | nil => rfl
  | cons b t =>
    by_cases h : r a b
    · simp [List.orderedInsert, h]
    · simp [List.orderedInsert, h]

lemma head?_insertionSort_eq_firstMaxBy {α : Type} (f : α → ℚ) (l : List α) :
    (List.insertionSort (fun p q => f q ≤ f p) l).head? = firstMaxBy f l := by
  induction l with
  | nil => rfl
  | cons a l ih =>
    rw [List.insertionSort, head?_orderedInsert]
    cases h : List.insertionSort (fun p q => f q ≤ f p) l with
    | nil =>
      rw [h] at ih
      simp only [List.head?] at ih
      simp [firstMaxBy, ← ih]
    | cons b t =>
      rw [h] at ih
      simp only [List.head?] at ih
      simp only [firstMaxBy, ← ih]
      split <;> rfl

lemma firstMaxBy_map {α β : Type} (g : β → α) (f : α → ℚ) (l : List β) :
    firstMaxBy f (l.map g) = (firstMaxBy (fun b => f (g b)) l).map g := by
  induction l with
  | nil => rfl
  | cons a l ih =>
    simp only [List.map_cons, firstMaxBy, ih]
    cases firstMaxBy (fun b => f (g b)) l with
    | none => rfl
    | some b =>
      simp only [Option.map_some]
      by_cases h : f (g b) ≤ f (g a)
      · simp [h]
      · simp [h]

lemma bandAgrees_categoryFromScore (s : ℚ) : bandAgrees s (categoryFromScore s) := by
  unfold bandAgrees categoryFromScore
  refine ⟨fun h => ?_, fun h => ?_, fun h => ?_⟩
  · rw [if_pos h]
  · have h8 : ¬ (8 : ℚ) ≤ s := by linarith [h.2]
    rw [if_neg h8, if_pos h.1]
  · have h8 : ¬ (8 : ℚ) ≤ s := by linarith
    have h5 : ¬ (5 : ℚ) ≤ s := by linarith
    rw [if_neg h8, if_neg h5]

lemma findGoalByKeyword_eq_spec (kw : String) (goals : List Goal) :
    findGoalByKeyword kw goals = findGoalByKeywordSpec kw goals := by
  unfold findGoalByKeyword findGoalByKeywordSpec
  cases goals with
  | nil => simp [firstMaxBy]
  | cons g0 rest =>
    simp only [List.isEmpty_cons, Bool.false_eq_true, if_false]
    cases hf : (g0 :: rest).find? (titleMatches (trimStr (toLowerStr kw))) with
    | some g => simp
    | none =>
      simp only []
      rw [head?_insertionSort_eq_firstMaxBy Prod.snd]
      rw [firstMaxBy_map]
      cases hm : firstMaxBy
          (fun g => calculateSimilarity (trimStr (toLowerStr kw)) (toLowerStr g.title))
          (g0 :: rest) with
      | none => simp
      | some g => simp

/-! ### The claims -/

/-- Claim C5: `findGoalByKeyword` resolves in exactly two phases over the
full goal list — a case-insensitive, trimmed substring phase where the
first goal in source order whose title contains the keyword (or whose
title is contained in the keyword) wins, and, only when no goal matches in
phase one, a Jaccard-similarity phase over space-tokenized words that
picks the maximum-similarity goal and returns it only if its similarity
is strictly greater than 0.5, returning `none` otherwise; and
`findGoalByKeyword "AI project"` against goals titled
`["Learn Guitar", "AI Assistant Project", "Fitness Challenge"]` returns
the goal titled `"AI Assistant Project"`. -/
theorem findGoalByKeyword_two_phase :
    (∀ (kw : String) (goals : List Goal),
        findGoalByKeyword kw goals = findGoalByKeywordSpec kw goals) ∧
    findGoalByKeyword "AI project"
        [⟨1, "Learn Guitar", true, 0⟩, ⟨2, "AI Assistant Project", true, 0⟩,
         ⟨3, "Fitness Challenge", true, 0⟩] =
      some ⟨2, "AI Assistant Project", true, 0⟩ :=
  ⟨findGoalByKeyword_eq_spec, by decide⟩

/-- Claim C9: the similarity function used by the fuzzy matcher is
symmetric — `calculateSimilarity a b = calculateSimilarity b a` for all
string pairs. -/
theorem calculateSimilarity_symm :
    ∀ a b : String, calculateSimilarity a b = calculateSimilarity b a := by
  intro a b
  unfold calculateSimilarity
  rw [Finset.inter_comm, Finset.union_comm]

/-- Claim C1 (counterexample): the claim "the surfaced category always
agrees with the clamped score's band, whatever category and score the
model's JSON response contains" is false — on the valid JSON response
`{"score": 10, "category": "low", "reasoning": "bulk newsletter"}` the
classifier surfaces score `10` with category `"low"`, because a
model-supplied category that is one of high/medium/low is kept verbatim
even when it disagrees with the score band. -/
theorem classify_category_band_cex :
    classify (some (some ⟨10, some "low", some "bulk newsletter"⟩)) =
      { score := 10, category := "low", reasoning := "bulk newsletter" } ∧
    ¬ bandAgrees (classify (some (some ⟨10, some "low", some "bulk newsletter"⟩))).score
        (classify (some (some ⟨10, some "low", some "bulk newsletter"⟩))).category := by
  decide

/-- Claim C1 (amended): a model-supplied category that is one of
high/medium/low is surfaced verbatim; whenever the model's category is
missing or invalid the surfaced category is derived from the clamped score
and agrees with its band, the parse-failure and call-failure fallbacks
(score 5, category medium) agree with the band, and every post-feedback
update of a stored `MonitoredMessage` derives its category from the
corrected score and agrees with its band. -/
theorem classify_category_band_amended :
    (∀ (p : ParsedClassificationJson) (c : String),
        p.category = some c → validCategory c = true →
        (parseClassificationResponse (some p)).category = c) ∧
    (∀ p : ParsedClassificationJson,
        (p.category = none ∨ ∃ c, p.category = some c ∧ validCategory c = false) →
        bandAgrees (parseClassificationResponse (some p)).score
          (parseClassificationResponse (some p)).category) ∧
    bandAgrees (parseClassificationResponse none).score
      (parseClassificationResponse none).category ∧
    bandAgrees (classify none).score (classify none).category ∧
    (∀ s : ℚ, bandAgrees (applyFeedback s).importanceScore (applyFeedback s).classification) := by
  refine ⟨?_, ?_, by decide, by decide, ?_⟩
  · intro p c hc hv
    simp [parseClassificationResponse, hc, hv]
  · intro p h
    rcases h with h | ⟨c, hc, hv⟩
    · have hcat : (parseClassificationResponse (some p)).category =
          categoryFromScore (max 1 (min 10 p.score)) := by
        simp [parseClassificationResponse, h]
      rw [hcat]
      exact bandAgrees_categoryFromScore _
    · have hcat : (parseClassificationResponse (some p)).category =
          categoryFromScore (max 1 (min 10 p.score)) := by
        simp [parseClassificationResponse, hc, hv]
      rw [hcat]
      exact bandAgrees_categoryFromScore _
  · intro s
    exact bandAgrees_categoryFromScore s

/-- Witness for the amended claim C1, at concrete inputs: a valid category
is kept verbatim, an invalid category is replaced by a band-derived one,
and a feedback update agrees with the band. -/
theorem classify_category_band_amended_witness :
    (parseClassificationResponse (some ⟨2, some "high", none⟩)).category = "high" ∧
    bandAgrees (parseClassificationResponse (some ⟨9, some "urgent!", none⟩)).score
      (parseClassificationResponse (some ⟨9, some "urgent!", none⟩)).category ∧
    bandAgrees (applyFeedback 9).importanceScore (applyFeedback 9).classification :=
  ⟨classify_category_band_amended.1 ⟨2, some "high", none⟩ "high" rfl rfl,
   classify_category_band_amended.2.1 ⟨9, some "urgent!", none⟩
     (Or.inr ⟨"urgent!", rfl, by decide⟩),
   classify_category_band_amended.2.2.2.2 9⟩

/-- Claim C8: every numeric score the model returns outside `[1, 10]` is
clamped to the nearest boundary (1 below, 10 above) in the surfaced and
stored classification result, and scores inside `[1, 10]` pass through
unchanged. -/
theorem classification_score_clamped :
    ∀ p : ParsedClassificationJson,
      (p.score < 1 → (parseClassificationResponse (some p)).score = 1) ∧
      (10 < p.score → (parseClassificationResponse (some p)).score = 10) ∧
      (1 ≤ p.score → p.score ≤ 10 → (parseClassificationResponse (some p)).score = p.score) := by
  intro p
  have hs : (parseClassificationResponse (some p)).score = max 1 (min 10 p.score) := rfl
  refine ⟨fun h => ?_, fun h => ?_, fun h1 h2 => ?_⟩ <;> rw [hs]
  · rw [min_eq_right (by linarith), max_eq_left (by linarith)]
  · rw [min_eq_left (by linarith), max_eq_right (by norm_num)]
  · rw [min_eq_right h2, max_eq_right h1]

/-- Witness for claim C8, at the concrete out-of-range scores 0 and 99 and
the in-range score 7. -/
theorem classification_score_clamped_witness :
    ((0 : ℚ) < 1 ∧ (parseClassificationResponse (some ⟨0, none, none⟩)).score = 1) ∧
    ((10 : ℚ) < 99 ∧ (parseClassificationResponse (some ⟨99, none, none⟩)).score = 10) ∧
    ((1 : ℚ) ≤ 7 ∧ (7 : ℚ) ≤ 10 ∧
      (parseClassificationResponse (some ⟨7, none, none⟩)).score = 7) :=
  ⟨⟨by norm_num, (classification_score_clamped ⟨0, none, none⟩).1 (by norm_num)⟩,
   ⟨by norm_num, (classification_score_clamped ⟨99, none, none⟩).2.1 (by norm_num)⟩,
   ⟨by norm_num, by norm_num,
     (classification_score_clamped ⟨7, none, none⟩).2.2 (by norm_num) (by norm_num)⟩⟩

/-- Claim C2: on a malformed model response, on a response whose intent
value lies outside the recognized enum, and on a gateway call that still
fails after retries, `analyzeIntent` returns the degraded result
`{intent: ChatOnly, entities: {}, confidence: 1.0}`; being a total Lean
function, the embedded analyzer never throws. -/
theorem analyzeIntent_degrades_to_chat :
    (∀ msg : String, analyzeIntent msg .failure = chatFallback msg) ∧
    (∀ msg resp : String, analyzeIntent msg (.success resp none) = chatFallback resp) ∧
    (∀ (msg resp : String) (p : ParsedIntentJson), p.intent.bind intentOfString = none →
        analyzeIntent msg (.success resp (some p)) = chatFallback resp) ∧
    (∀ raw : String, (chatFallback raw).intent = Intent.chat ∧
        (chatFallback raw).entities = [] ∧ (chatFallback raw).confidence = 1) := by
  refine ⟨fun msg => rfl, fun msg resp => rfl, fun msg resp p h => ?_,
    fun raw => ⟨rfl, rfl, rfl⟩⟩
  simp [analyzeIntent, parseIntentResponse, h]

/-- Witness for claim C2: the unrecognized intent string
`"fly_to_moon"` degrades to the chat fallback. -/
theorem analyzeIntent_degrades_to_chat_witness :
    (⟨some "fly_to_moon", none, some 1⟩ : ParsedIntentJson).intent.bind intentOfString =
      none ∧
    analyzeIntent "hello" (.success "oops" (some ⟨some "fly_to_moon", none, some 1⟩)) =
      chatFallback "oops" :=
  ⟨by decide,
   analyzeIntent_degrades_to_chat.2.2.1 "hello" "oops" ⟨some "fly_to_moon", none, some 1⟩
     (by decide)⟩

/-- Claim C3 (counterexample): the claim "an Action Executor is invoked if
and only if the analyzed intent is not ChatOnly and the confidence is
strictly greater than 0.6" is false — for `intent = get_status` with
confidence 1 the gate condition holds, yet no Action Executor is invoked
(the `executeAction` switch has no executor for `get_status` and returns
`null`). -/
theorem dispatch_iff_cex :
    ((⟨Intent.get_status, [], 1, "status"⟩ : IntentAnalysisResult).intent ≠ Intent.chat ∧
      mkRat 3 5 < (⟨Intent.get_status, [], 1, "status"⟩ : IntentAnalysisResult).confidence) ∧
    chatInvokedExecutor true ⟨Intent.get_status, [], 1, "status"⟩ = none := by
  decide

/-- Claim C3 (amended): given a credential, the dispatcher
(`executeAction`) is reached exactly when the intent is not ChatOnly and
the confidence is strictly greater than 0.6; an Action Executor is invoked
exactly when additionally the intent is one of create_log, create_goal,
create_reminder; and with intent ChatOnly or confidence at most 0.6 (or
with no credential) no executor is invoked and the turn carries no action
result. -/
theorem dispatch_gate_amended :
    ∀ (α : Type) (runLog runGoal runReminder : α) (r : IntentAnalysisResult),
      (chatCallsDispatcher true r = true ↔
        r.intent ≠ Intent.chat ∧ mkRat 3 5 < r.confidence) ∧
      ((chatInvokedExecutor true r).isSome = true ↔
        (r.intent ≠ Intent.chat ∧ mkRat 3 5 < r.confidence) ∧
          (r.intent = .create_log ∨ r.intent = .create_goal ∨ r.intent = .create_reminder)) ∧
      (r.intent = Intent.chat ∨ r.confidence ≤ mkRat 3 5 →
        chatInvokedExecutor true r = none ∧
          chatActionResult runLog runGoal runReminder true r = none) ∧
      chatInvokedExecutor false r = none ∧
      chatActionResult runLog runGoal runReminder false r = none := by
  intro α a b c r
  obtain ⟨i, e, conf, raw⟩ := r
  by_cases hc : mkRat 3 5 < conf
  · cases i <;>
      simp [chatCallsDispatcher, chatInvokedExecutor, chatActionResult, executorFor,
        executeAction, hc, not_lt_of_le, le_of_lt]
  · cases i <;>
      simp [chatCallsDispatcher, chatInvokedExecutor, chatActionResult, executorFor,
        executeAction, hc]

/-- Witness for the amended claim C3: a ChatOnly intent produces no
executor call and no action result. -/
theorem dispatch_gate_amended_witness :
    chatInvokedExecutor true ⟨Intent.chat, [], 1, "hi"⟩ = none ∧
    chatActionResult (0 : Nat) 0 0 true ⟨Intent.chat, [], 1, "hi"⟩ = none :=
  (dispatch_gate_amended Nat 0 0 0 ⟨Intent.chat, [], 1, "hi"⟩).2.2.1 (Or.inl rfl)

/-- Claim C10: for the intents update_goal, get_status and get_summary
that pass the dispatch gate, `executeAction` returns `null` — no Action
Executor exists for them, so no Goal-Tracker call is made and the chat
turn proceeds with no action result rather than an error. -/
theorem query_intents_return_null :
    ∀ (α : Type) (runLog runGoal runReminder : α) (r : IntentAnalysisResult),
      (r.intent = .update_goal ∨ r.intent = .get_status ∨ r.intent = .get_summary) →
      mkRat 3 5 < r.confidence →
      chatActionResult runLog runGoal runReminder true r = none ∧
      chatInvokedExecutor true r = none := by
  intro α a b c r h hconf
  have he : executorFor r.intent = none := by
    rcases h with h | h | h <;> rw [h] <;> rfl
  have hea : executeAction a b c r.intent = none := by
    rw [executeAction, he]
    rfl
  constructor
  · rw [chatActionResult]
    split
    · exact hea
    · rfl
  · rw [chatInvokedExecutor]
    split
    · exact he
    · rfl

/-- Witness for claim C10, at `get_status` with confidence 1. -/
theorem query_intents_return_null_witness :
    chatActionResult (0 : Nat) 0 0 true ⟨Intent.get_status, [], 1, "s"⟩ = none ∧
    chatInvokedExecutor true ⟨Intent.get_status, [], 1, "s"⟩ = none :=
  query_intents_return_null Nat 0 0 0 ⟨Intent.get_status, [], 1, "s"⟩
    (Or.inr (Or.inl rfl)) (by decide)

/-- Claim C4 (counterexample): the claim "every `createGoal` call with
`durationDays` outside `[1, 3650]` returns `success: false` and performs
no network call" is false — `durationDays` is a JS number, and the
fractional duration 1/2 lies outside `[1, 3650]` yet passes the source
guard `durationDays <= 0 || durationDays > 3650`, so the goal-creation
request is sent and the call succeeds. -/
theorem createGoal_duration_cex :
    (mkRat 1 2 < 1 ∨ (3650 : ℚ) < mkRat 1 2) ∧
    (createGoal ⟨"Nap", none, mkRat 1 2, none, none, "tok"⟩ "2026-10-11" 0
        (.ok ⟨9, "Nap", true, 0⟩)).1.success = true ∧
    (createGoal ⟨"Nap", none, mkRat 1 2, none, none, "tok"⟩ "2026-10-11" 0
        (.ok ⟨9, "Nap", true, 0⟩)).2 ≠ none := by
  refine ⟨Or.inl (by norm_num), by decide, by decide⟩

/-- Claim C4 (amended): every `createGoal` call with `durationDays` at
most 0 or greater than 3650 returns `success: false` with the explanatory
message and performs no goal-creation network request, while any
`durationDays` in `(0, 3650]` — in particular every integer in
`[1, 3650]` — passes the validation (the request is sent); the embedded
function is total, so no exception is thrown. -/
theorem createGoal_duration_validation :
    ∀ (p : CreateGoalParams) (today : String) (randIdx : Fin 10) (api : Except String Goal),
      ((p.durationDays ≤ 0 ∨ 3650 < p.durationDays) →
        (createGoal p today randIdx api).1.success = false ∧
        (createGoal p today randIdx api).1.message =
          "Goal duration must be between 1 and 3650 days (10 years)." ∧
        (createGoal p today randIdx api).2 = none) ∧
      (0 < p.durationDays → p.durationDays ≤ 3650 →
        (createGoal p today randIdx api).2 ≠ none) := by
  intro p today randIdx api
  constructor
  · intro h
    unfold createGoal
    rw [if_pos h]
    exact ⟨rfl, rfl, rfl⟩
  · intro h1 h2
    have hv : ¬ (p.durationDays ≤ 0 ∨ 3650 < p.durationDays) := by
      push_neg
      exact ⟨h1, h2⟩
    unfold createGoal
    rw [if_neg hv]
    cases api <;> simp

/-- Witness for the amended claim C4, at the out-of-range duration 0 and
the in-range duration 90. -/
theorem createGoal_duration_validation_witness :
    (((0 : ℚ) ≤ 0 ∨ 3650 < (0 : ℚ)) ∧
      (createGoal ⟨"Read", none, 0, none, none, "tok"⟩ "2026-10-11" 0 (.error "down")).1.success =
        false ∧
      (createGoal ⟨"Read", none, 0, none, none, "tok"⟩ "2026-10-11" 0 (.error "down")).2 =
        none) ∧
    ((0 : ℚ) < 90 ∧ (90 : ℚ) ≤ 3650 ∧
      (createGoal ⟨"Learn Python", none, 90, none, none, "tok"⟩ "2026-10-11" 0
          (.ok ⟨7, "Learn Python", true, 0⟩)).2 ≠ none) :=
  ⟨⟨Or.inl (by norm_num),
    ((createGoal_duration_validation ⟨"Read", none, 0, none, none, "tok"⟩ "2026-10-11" 0
        (.error "down")).1 (Or.inl (by norm_num))).1,
    ((createGoal_duration_validation ⟨"Read", none, 0, none, none, "tok"⟩ "2026-10-11" 0
        (.error "down")).1 (Or.inl (by norm_num))).2.2⟩,
   ⟨by norm_num, by norm_num,
    (createGoal_duration_validation ⟨"Learn Python", none, 90, none, none, "tok"⟩ "2026-10-11" 0
        (.ok ⟨7, "Learn Python", true, 0⟩)).2 (by norm_num) (by norm_num)⟩⟩

/-- Claim C6 (counterexample): the claim "when the user has no configured
preferences, the default window 08:00–21:00 applies" is false — at 23:30,
outside the default window (so a user whose preferences row carries the
schema defaults is skipped), a user with no preferences row is treated as
always active and the cycle fetches and processes anyway. -/
theorem activeHours_default_cex :
    isWithinActiveHours (some defaultPrefs) "23:30" = false ∧
    isWithinActiveHours none "23:30" = true ∧
    checkGmailForUser none "23:30" ["msg-1"] [] =
      [.fetchEmails, .classifyAndStore "msg-1", .updateLastSync] ∧
    checkGmailForUser (some defaultPrefs) "23:30" ["msg-1"] [] = [] := by
  decide

/-- Claim C6 (amended): before fetching, the per-user cycle checks the
wake/sleep window and, outside it, skips the cycle entirely for that user
(no fetch, no classification, no sync update); for a user with an
`ai_preferences` row the window is the row's wake/sleep times (which
default to 08:00–21:00 at the schema level), while a user with no row at
all is treated as always active. -/
theorem activeHours_gate_amended :
    ∀ (prefs : Option ActiveHoursPrefs) (now : String) (fetched stored : List String),
      (isWithinActiveHours prefs now = false →
        checkGmailForUser prefs now fetched stored = []) ∧
      (isWithinActiveHours prefs now = true →
        checkGmailForUser prefs now fetched stored =
          .fetchEmails :: (processEmails stored fetched ++ [.updateLastSync])) ∧
      (∀ p, prefs = some p →
        (isWithinActiveHours prefs now = true ↔
          strLE p.wakeTime now = true ∧ strLE now p.sleepTime = true)) ∧
      (prefs = none → isWithinActiveHours prefs now = true) := by
  intro prefs now fetched stored
  refine ⟨fun h => ?_, fun h => ?_, fun p hp => ?_, fun hp => ?_⟩
  · simp [checkGmailForUser, h]
  · simp [checkGmailForUser, h]
  · subst hp
    simp [isWithinActiveHours]
  · subst hp
    rfl

/-- Witness for the amended claim C6: at 06:30, before the default wake
time, a user with the default-window row is skipped entirely. -/
theorem activeHours_gate_amended_witness :
    isWithinActiveHours (some defaultPrefs) "06:30" = false ∧
    checkGmailForUser (some defaultPrefs) "06:30" ["m1"] [] = [] :=
  ⟨by decide,
   (activeHours_gate_amended (some defaultPrefs) "06:30" ["m1"] []).1 (by decide)⟩

/-- Claim C7 (counterexample): the claim "CreateReminder resolves its
target goal the same way as CreateLog when a goal keyword is supplied" is
false — with the keyword "meditation" and two active goals matching
nothing, CreateLog returns a "needs goal selection" result while
CreateReminder silently falls back to the first active goal. -/
theorem reminder_resolution_cex :
    resolveLogGoal (some "meditation")
        [⟨1, "Learn Guitar", true, 0⟩, ⟨2, "Fitness Challenge", true, 0⟩] =
      .needsSelection [⟨1, "Learn Guitar", true, 0⟩, ⟨2, "Fitness Challenge", true, 0⟩] ∧
    resolveReminderGoal (some "meditation")
        [⟨1, "Learn Guitar", true, 0⟩, ⟨2, "Fitness Challenge", true, 0⟩] =
      .resolved ⟨1, "Learn Guitar", true, 0⟩ := by
  decide

/-- Claim C7 (amended): CreateReminder uses the same fuzzy keyword matcher
as CreateLog, and a matched keyword resolves the same goal in both;
however, whenever the keyword step produces no goal — no keyword supplied,
or the keyword matched nothing — CreateReminder falls back to the first
active goal instead of asking, and returns the non-exception
create-a-goal-first failure when zero active goals exist. -/
theorem reminder_resolution_amended :
    ∀ (kw : String) (goals : List Goal) (g : Goal),
      (kw.isEmpty = false → findGoalByKeyword kw goals = some g →
        resolveLogGoal (some kw) goals = .resolved g ∧
        resolveReminderGoal (some kw) goals = .resolved g) ∧
      (∀ gk : Option String, reminderKeywordGoal gk goals = none →
        resolveReminderGoal gk goals =
          match activeGoals goals with
          | [] => .noActiveGoals
          | a :: _ => .resolved a) ∧
      (reminderKeywordGoal none goals = none) := by
  intro kw goals g
  refine ⟨fun hk hf => ⟨?_, ?_⟩, fun gk h => ?_, rfl⟩
  · simp [resolveLogGoal, hk, hf]
  · simp [resolveReminderGoal, reminderKeywordGoal, hk, hf]
  · rw [resolveReminderGoal, h]

/-- Witness for the amended claim C7: the keyword "guitar" resolves the
same goal in both executors, and with no keyword the reminder uses the
first active goal. -/
theorem reminder_resolution_amended_witness :
    ("guitar".isEmpty = false ∧
      findGoalByKeyword "guitar" [⟨1, "Learn Guitar", true, 0⟩] =
        some ⟨1, "Learn Guitar", true, 0⟩ ∧
      resolveLogGoal (some "guitar") [⟨1, "Learn Guitar", true, 0⟩] =
        .resolved ⟨1, "Learn Guitar", true, 0⟩ ∧
      resolveReminderGoal (some "guitar") [⟨1, "Learn Guitar", true, 0⟩] =
        .resolved ⟨1, "Learn Guitar", true, 0⟩) ∧
    resolveReminderGoal none [⟨1, "Learn Guitar", true, 0⟩] =
      .resolved ⟨1, "Learn Guitar", true, 0⟩ :=
  ⟨⟨by decide, by decide,
    ((reminder_resolution_amended "guitar" [⟨1, "Learn Guitar", true, 0⟩]
        ⟨1, "Learn Guitar", true, 0⟩).1 (by decide) (by decide)).1,
    ((reminder_resolution_amended "guitar" [⟨1, "Learn Guitar", true, 0⟩]
        ⟨1, "Learn Guitar", true, 0⟩).1 (by decide) (by decide)).2⟩,
   (reminder_resolution_amended "x" [⟨1, "Learn Guitar", true, 0⟩]
       ⟨1, "Learn Guitar", true, 0⟩).2.1 none rfl⟩

end Calos
